import Mathlib

/-!
Verification development for the go-batch pipeline (wlach/go-batch).

The repository provides a batch-assembly and distribution pipeline:

* `src/batch/batch.go` — the orchestrator `Batch` (`NewBatch`, `ReadItems`,
  `StartBachProcessing`, `StopProducer`, `StopConsumer`, `Stop`, `Close`);
* `src/consumer.go` — the distribution stage `BatchConsumer`
  (`NewBatchConsumer`, `StartConsumer`, `ConsumerFunc`, `ConsumerBatch`,
  `WorkerFunc`, `Shutdown`) and `BatchSupply`.

The producer file (`WatchProducer`, `CheckRemainingItems`, the `BatchItems`
struct, the `items` package variable declaration, the `BatchOptions`
mutators) and the semaphore file are part of the repository but are not
among the given sources; where a definition below embeds one of those, its
doc comment says `Modelled from the spec:` and follows the specification
document instead.

Go channels and goroutines are embedded shallowly: loops become structural
recursion over the list of values a channel carries, channel state (open or
closed) becomes an explicit boolean, a panic becomes `Except.error`, and
scheduling freedom is made explicit as a schedule parameter where a claim
quantifies over interleavings.
-/

namespace GoBatch

/-- The tagged item produced by the orchestrator.  `ReadItems`
(src/batch/batch.go, lines 57-73) constructs `&BatchItems{Id: b.Id, Item: item}`;
the struct itself is declared in the producer file, which is not among the
given sources.  Modelled from the spec: a TaggedItem is
`{ Id: integer, Payload: Item }` (spec section 3); the opaque payload is
represented as a natural number. -/
structure BatchItems where
  Id : Nat
  Item : Nat
deriving DecidableEq, Repr

/-- Sequential semantics of the loop body of `ReadItems`
(src/batch/batch.go, lines 57-73): each value received on `b.Item` increments
`b.Id` and is wrapped as a `BatchItems` carrying the incremented counter.
`id` is the counter value before the remaining stream `xs` is processed. -/
def readItemsGo (id : Nat) : List Nat → List BatchItems
  | [] => []
  | x :: xs => { Id := id + 1, Item := x } :: readItemsGo (id + 1) xs

/-- `ReadItems` applied to a whole submission stream, starting from the zero
counter a fresh `Batch` carries. -/
def readItems (xs : List Nat) : List BatchItems :=
  readItemsGo 0 xs

/-- `ReadItems` forwards each tagged item to `b.Producer.Watcher` inside a
goroutine spawned per item (src/batch/batch.go, lines 64-69), so the order in
which tagged items arrive at the producer is a scheduling choice.  A schedule
lists, in completion order, the spawn indices of the forwarding goroutines;
the arrival order at the Watcher channel is the tagged stream permuted by the
schedule. -/
def arrivalUnder (tagged : List BatchItems) (sched : List Nat) : List BatchItems :=
  sched.filterMap fun i => tagged[i]?

/-- A schedule is an interleaving of the per-item forwarding goroutines when
it is a permutation of the spawn indices. -/
def validSched (n : Nat) (sched : List Nat) : Prop :=
  List.Perm sched (List.range n)

instance (n : Nat) (sched : List Nat) : Decidable (validSched n sched) := by
  unfold validSched; infer_instance

/-- Modelled from the spec: the producer accumulation loop (`WatchProducer`,
producer file, not among the given sources).  Spec section 4.1: the assembler
holds a single in-progress batch; the count trigger fires the instant the
batch reaches `MaxItems`, flushing it and opening a new empty window.  The
time trigger needs no separate case here because every run considered by the
claims is driven item by item; a flush hands the sealed batch to the
consumer callback.  `buf` is the in-progress window; the result is the list
of flushed batches in flush order, paired with the window left unflushed. -/
def watchGo (maxItems : Nat) (buf : List BatchItems) :
    List BatchItems → List (List BatchItems) × List BatchItems
  | [] => ([], buf)
  | x :: xs =>
      let buf' := buf ++ [x]
      if buf'.length = maxItems then
        let r := watchGo maxItems [] xs
        (buf' :: r.1, r.2)
      else
        watchGo maxItems buf' xs

/-- The producer run from an empty window, as started by
`StartBachProcessing`. -/
def watchProducerRun (maxItems : Nat) (stream : List BatchItems) :
    List (List BatchItems) × List BatchItems :=
  watchGo maxItems [] stream

/-- Modelled from the spec: `CheckRemainingItems` (producer file, not among
the given sources), the drain step `Close` spawns
(src/batch/batch.go, line 97).  Spec section 4.1, `DrainRemaining`: reports,
then flushes, whatever items remain un-batched at shutdown; a nonempty
remainder is released as one final batch, an empty remainder releases
nothing. -/
def checkRemainingItems (rem : List BatchItems) : List (List BatchItems) :=
  if 1 ≤ rem.length then [rem] else []

/-- All batches handed to the consumer callback over a full run followed by
`Close` (src/batch/batch.go, lines 92-110): the batches the producer flushed
during the run, then the forced drain flush of the remaining window. -/
def closeDelivered (maxItems : Nat) (stream : List BatchItems) :
    List (List BatchItems) :=
  (watchProducerRun maxItems stream).1 ++
    checkRemainingItems (watchProducerRun maxItems stream).2

/-! ## The distribution stage (src/consumer.go) -/

/-- The package-level worker pool size, `var DefaultWorkerPool = 10`
(src/consumer.go, lines 12-14). -/
def DefaultWorkerPool : Nat := 10

/-- The worker tasks `StartConsumer` spins up (src/consumer.go, lines 94-97):
`c.Workerline.Add(DefaultWorkerPool)` followed by
`go c.WorkerFunc(i)` for `i` from `0` to `DefaultWorkerPool - 1`.  The pool
size is the package-level `DefaultWorkerPool`; no configuration value reaches
this loop. -/
def startConsumerWorkers : List Nat :=
  List.range DefaultWorkerPool

/-- One worker iteration of `WorkerFunc` (src/consumer.go, lines 142-156)
pairs one batch received from `BatchWorkerCh` with one response slot received
from `Supply.BatchSupplyCh` and sends the batch into that slot once.
Modelled from the spec for the slot side: `GetBatchSupply` (not among the
given sources) advertises a fresh response slot per pull caller, so distinct
slot identifiers stand for distinct `RequestSupply` callers (spec
section 4.2).  A Go channel hands each queued batch to exactly one receiving
worker, so the combined worker pool consumes queue entries one by one; with
`slots` the response slots in the order they are taken from `BatchSupplyCh`,
the deliveries are the batch/slot pairs in that order, and a worker blocked
with no remaining slot (or an empty queue) delivers nothing further. -/
def workerDeliver : List (List BatchItems) → List Nat →
    List (Nat × List BatchItems)
  | [], _ => []
  | _ :: _, [] => []
  | b :: bs, s :: ss => (s, b) :: workerDeliver bs ss

/-- The statements of `StartConsumer` after `<-c.TerminateCh` unblocks
(src/consumer.go, lines 100-103), in program order: `cancel()`,
`os.Exit(0)`, `c.Workerline.Wait()`. -/
inductive ConsumerAction where
  | cancelRouting
  | processExit
  | workerlineWait
deriving DecidableEq, Repr

/-- The shutdown tail of `StartConsumer` as written in the source
(src/consumer.go, lines 101-103). -/
def startConsumerShutdownStmts : List ConsumerAction :=
  [ConsumerAction.cancelRouting, ConsumerAction.processExit,
   ConsumerAction.workerlineWait]

/-- Execution of a straight-line statement list: `os.Exit` terminates the
process, so no statement after it runs. -/
def execStmts : List ConsumerAction → List ConsumerAction
  | [] => []
  | ConsumerAction.processExit :: _ => [ConsumerAction.processExit]
  | a :: rest => a :: execStmts rest

/-! ## The orchestrator (src/batch/batch.go) -/

/-- The producer configuration the `BatchOptions` mutators act on.  The
producer struct is declared in the producer file, not among the given
sources; `NewBatch` (src/batch/batch.go, lines 31-33 and 37-39) applies each
option to it and then reads `p.MaxItems` for the semaphore capacity and the
fresh `items` slice.  Modelled from the spec for the fields: `MaxItems` a
positive integer, `MaxWait` a duration (spec section 3); a Go duration is a
signed integer count of nanoseconds, so `MaxWait` is an `Int`. -/
structure BatchProducerModel where
  MaxItems : Nat
  MaxWait : Int
deriving DecidableEq, Repr

/-- Modelled from the spec: `WithMaxItems(n)` maps to the `MaxItems`
configuration field (spec section 6); the options file is not among the
given sources. -/
def withMaxItems (n : Nat) : BatchProducerModel → BatchProducerModel :=
  fun p => { p with MaxItems := n }

/-- Modelled from the spec: `WithMaxWait(d)` maps to the `MaxWait`
configuration field (spec section 6); the options file is not among the
given sources. -/
def withMaxWait (d : Int) : BatchProducerModel → BatchProducerModel :=
  fun p => { p with MaxWait := d }

/-- The option loop of `NewBatch` (src/batch/batch.go, lines 31-33):
`for _, opt := range opts { opt(p) }`. -/
def applyOpts (opts : List (BatchProducerModel → BatchProducerModel))
    (p : BatchProducerModel) : BatchProducerModel :=
  opts.foldl (fun acc opt => opt acc) p

/-- The observable result of `NewBatch`: the zeroed id counter, the
configured producer, and the semaphore capacity `NewSemaphore(int(p.MaxItems))`
(src/batch/batch.go, lines 22-37). -/
structure BatchModel where
  Id : Nat
  Producer : BatchProducerModel
  SemaphoreCapacity : Nat
deriving DecidableEq, Repr

/-- `NewBatch` (src/batch/batch.go, lines 20-42) with the package-global
`items` slice made explicit: `g` is the global slice before the call, and the
second component is the global slice after the call, reassigned by line 39,
`items = make([]BatchItems, 0, p.MaxItems)`, to a fresh empty slice whatever
`g` held.  `NewBatch` has no error return and performs no validation of the
resulting configuration.  The initial producer configuration `init` stands
for the defaults `NewBatchProducer` installs (producer file, not among the
given sources, defaults unspecified by the spec). -/
def NewBatchGlobal (g : List BatchItems) (init : BatchProducerModel)
    (opts : List (BatchProducerModel → BatchProducerModel)) :
    BatchModel × List BatchItems :=
  let _ := g
  let p := applyOpts opts init
  ({ Id := 0, Producer := p, SemaphoreCapacity := p.MaxItems }, [])

/-! ## Close (src/batch/batch.go, lines 92-110) -/

/-- A Go runtime panic raised by channel operations. -/
inductive ChanPanic where
  | closeOfClosed
deriving DecidableEq, Repr

/-- The body `Close` runs once the drain-completion signal arrives
(src/batch/batch.go, lines 103-106): `b.Semaphore.Lock()`, `b.Stop()`,
`close(b.Item)`, `b.Semaphore.Unlock()`.  The state records whether the
ingestion channel `b.Item` is already closed; closing a closed channel is a
Go runtime panic.  `Stop` only signals the producer and consumer quit
channels and does not affect `b.Item`. -/
def closeCritical (itemClosed : Bool) : Except ChanPanic Bool :=
  if itemClosed then Except.error ChanPanic.closeOfClosed
  else Except.ok true

/-- One invocation of `Close` as far as the ingestion channel is concerned:
`CheckRemainingItems` signals `done` exactly once, the `case <-done` branch
runs `closeCritical`, and the new channel state is returned (the invocation
then loops forever, see `closeStep`). -/
def closeChanEffect (itemClosed : Bool) : Except ChanPanic Bool :=
  (closeCritical itemClosed).map fun _ => true

/-- The control state of one `Close` invocation
(src/batch/batch.go, lines 95-109): `loopWait d c` is the `for { select }`
loop with `d` drain-completion signals not yet consumed and `c` completed
body executions; `returned` would be `Close` handing control back to its
caller.  `CheckRemainingItems` sends exactly one signal on `done`, so the
invocation starts at `loopWait 1 0`. -/
inductive CloseState where
  | loopWait (doneSignals : Nat) (bodyRuns : Nat)
  | returned
deriving DecidableEq, Repr

/-- One scheduler step of the `Close` loop: with a pending `done` signal the
`select` consumes it and runs the body, then re-enters the loop; with no
pending signal the `select` blocks.  No branch of the loop returns, breaks,
or panics out of `Close` itself, so no step produces `returned` from
`loopWait`. -/
def closeStep : CloseState → CloseState
  | CloseState.loopWait (d + 1) c => CloseState.loopWait d (c + 1)
  | CloseState.loopWait 0 c => CloseState.loopWait 0 c
  | CloseState.returned => CloseState.returned

/-! ## Modelled from the spec: the validating constructor of section 7 -/

/-- Configuration errors of spec section 7. -/
inductive ConfigError where
  | nonPositiveMaxItems
  | nonPositiveWorkerPool
  | nonPositiveMaxWait
deriving DecidableEq, Repr

/-- Modelled from the spec: the resolved configuration of section 3,
including the worker pool size, for comparison with the code-side
definitions. -/
structure PipelineConfigSpec where
  MaxItemsCfg : Nat
  MaxWaitCfg : Int
  WorkerPoolSize : Nat
deriving DecidableEq, Repr

/-- Modelled from the spec: the worker pool size the spec says construction
determines (spec section 6, `WithWorkerPoolSize(n)`). -/
def workerCountPerSpec (cfg : PipelineConfigSpec) : Nat :=
  cfg.WorkerPoolSize

/-- Modelled from the spec: construction must report non-positive `MaxItems`,
non-positive `WorkerPoolSize`, or zero/negative `MaxWait` synchronously and
not start the pipeline (spec section 7). -/
def NewBatchSpecCheck (cfg : PipelineConfigSpec) :
    Except ConfigError PipelineConfigSpec :=
  if cfg.MaxItemsCfg = 0 then Except.error ConfigError.nonPositiveMaxItems
  else if cfg.WorkerPoolSize = 0 then Except.error ConfigError.nonPositiveWorkerPool
  else if cfg.MaxWaitCfg ≤ 0 then Except.error ConfigError.nonPositiveMaxWait
  else Except.ok cfg

/-! ## Helper lemmas -/

theorem readItemsGo_map_id (xs : List Nat) :
    ∀ id : Nat, (readItemsGo id xs).map BatchItems.Id = List.range' (id + 1) xs.length := by
  induction xs with
  | nil => intro id; rfl
  | cons x xs ih =>
      intro id
      simp only [readItemsGo, List.map_cons, List.length_cons, ih (id + 1)]
      rw [List.range'_succ]

theorem readItemsGo_map_payload (xs : List Nat) :
    ∀ id : Nat, (readItemsGo id xs).map BatchItems.Item = xs := by
  induction xs with
  | nil => intro id; rfl
  | cons x xs ih => intro id; simp only [readItemsGo, List.map_cons, ih (id + 1)]

theorem readItems_map_id (xs : List Nat) :
    (readItems xs).map BatchItems.Id = List.range' 1 xs.length :=
  readItemsGo_map_id xs 0

theorem readItems_map_payload (xs : List Nat) :
    (readItems xs).map BatchItems.Item = xs :=
  readItemsGo_map_payload xs 0

theorem readItems_length (xs : List Nat) : (readItems xs).length = xs.length := by
  have h := congrArg List.length (readItems_map_payload xs)
  simpa using h

/-- Nothing is lost or duplicated by the producer loop: the flushed batches
followed by the unflushed window are exactly the window it started with
followed by the stream it consumed. -/
theorem watchGo_flatten (maxItems : Nat) (xs : List BatchItems) :
    ∀ buf : List BatchItems,
      (watchGo maxItems buf xs).1.flatten ++ (watchGo maxItems buf xs).2 = buf ++ xs := by
  induction xs with
  | nil => intro buf; simp [watchGo]
  | cons x xs ih =>
      intro buf
      by_cases h : (buf ++ [x]).length = maxItems
      · simp only [watchGo]
        rw [if_pos h, List.flatten_cons, List.append_assoc, ih []]
        simp
      · simp only [watchGo]
        rw [if_neg h, ih (buf ++ [x])]
        simp

theorem closeDelivered_flatten (maxItems : Nat) (s : List BatchItems) :
    (closeDelivered maxItems s).flatten = s := by
  unfold closeDelivered checkRemainingItems
  by_cases h : 1 ≤ (watchProducerRun maxItems s).2.length
  · rw [if_pos h]
    have := watchGo_flatten maxItems s []
    simpa [watchProducerRun] using this
  · rw [if_neg h]
    have hnil : (watchProducerRun maxItems s).2 = [] := by
      cases hr : (watchProducerRun maxItems s).2 with
      | nil => rfl
      | cons a l => exfalso; apply h; rw [hr]; simp
    have := watchGo_flatten maxItems s []
    rw [watchProducerRun] at hnil
    simp only [watchProducerRun, List.append_nil]
    have h2 := this
    rw [hnil, List.append_nil, List.nil_append] at h2
    simpa using h2

/-- Every batch the producer flushes, and the unflushed window, is a sublist
of the input (window prefix first). -/
theorem watchGo_sublists (maxItems : Nat) (xs : List BatchItems) :
    ∀ buf : List BatchItems,
      (∀ b ∈ (watchGo maxItems buf xs).1, b.Sublist (buf ++ xs)) ∧
        (watchGo maxItems buf xs).2.Sublist (buf ++ xs) := by
  induction xs with
  | nil =>
      intro buf
      constructor
      · intro b hb; simp [watchGo] at hb
      · simp [watchGo]
  | cons x xs ih =>
      intro buf
      have hstep : (buf ++ [x]).Sublist (buf ++ x :: xs) :=
        (List.Sublist.refl buf).append (List.singleton_sublist.mpr (List.mem_cons_self x xs))
      have hrest : ∀ l : List BatchItems, l.Sublist xs → l.Sublist (buf ++ x :: xs) := by
        intro l hl
        exact hl.trans ((List.sublist_cons_self x xs).trans (List.sublist_append_right buf _))
      by_cases h : (buf ++ [x]).length = maxItems
      · simp only [watchGo, h, if_pos rfl]
        refine ⟨?_, ?_⟩
        · intro b hb
          rcases List.mem_cons.mp hb with hb | hb
          · subst hb; exact hstep
          · have := (ih []).1 b hb
            simpa using hrest b (by simpa using this)
        · have := (ih []).2
          exact hrest _ (by simpa using this)
      · simp only [watchGo, if_neg h]
        have harr : buf ++ [x] ++ xs = buf ++ x :: xs := by simp
        constructor
        · intro b hb
          have := (ih (buf ++ [x])).1 b hb
          rwa [harr] at this
        · have := (ih (buf ++ [x])).2
          rwa [harr] at this

theorem closeDelivered_mem_sublist (maxItems : Nat) (s b : List BatchItems)
    (hb : b ∈ closeDelivered maxItems s) : b.Sublist s := by
  unfold closeDelivered at hb
  rcases List.mem_append.mp hb with hb | hb
  · have := (watchGo_sublists maxItems s []).1 b (by simpa [watchProducerRun] using hb)
    simpa using this
  · unfold checkRemainingItems at hb
    by_cases h : 1 ≤ (watchProducerRun maxItems s).2.length
    · rw [if_pos h] at hb
      have hb' : b = (watchProducerRun maxItems s).2 := by simpa using hb
      subst hb'
      have := (watchGo_sublists maxItems s []).2
      simpa [watchProducerRun] using this
    · rw [if_neg h] at hb
      simp at hb

/-- Under the schedule in which every forwarding goroutine completes before
the next item is read (the spawn-order schedule), the producer sees the
tagged stream exactly as `ReadItems` produced it. -/
theorem arrivalUnder_range (t : List BatchItems) :
    arrivalUnder t (List.range t.length) = t := by
  unfold arrivalUnder
  induction t with
  | nil => rfl
  | cons x t ih =>
      rw [List.length_cons, List.range_succ_eq_map, List.filterMap_cons]
      simp only [List.getElem?_cons_zero, Option.some.injEq]
      rw [List.filterMap_map]
      have : ((fun i => (x :: t)[i]?) ∘ Nat.succ) = fun i => t[i]? := by
        funext i
        simp [Function.comp, List.getElem?_cons_succ]
      rw [this, ih]

/-- The spawn-order schedule is a valid interleaving. -/
theorem validSched_range (n : Nat) : validSched n (List.range n) :=
  List.Perm.refl _

theorem workerDeliver_map_snd (batches : List (List BatchItems)) :
    ∀ slots : List Nat, batches.length ≤ slots.length →
      (workerDeliver batches slots).map Prod.snd = batches := by
  induction batches with
  | nil => intro slots _; cases slots <;> rfl
  | cons b bs ih =>
      intro slots hlen
      cases slots with
      | nil => simp at hlen
      | cons s ss =>
          simp only [workerDeliver, List.map_cons, List.cons.injEq, true_and]
          exact ih ss (by simpa using hlen)

theorem closeStep_loopWait_ne_returned (n : Nat) :
    ∀ d c : Nat, closeStep^[n] (CloseState.loopWait d c) ≠ CloseState.returned := by
  induction n with
  | zero => intro d c; simp
  | succ n ih =>
      intro d c
      rw [Function.iterate_succ_apply]
      cases d with
      | zero => exact ih 0 c
      | succ d => exact ih d (c + 1)

theorem closeStep_blocked_fixed (n : Nat) (c : Nat) :
    closeStep^[n] (CloseState.loopWait 0 c) = CloseState.loopWait 0 c := by
  induction n with
  | zero => rfl
  | succ n ih => rw [Function.iterate_succ_apply]; exact ih

/-- When fewer items arrive than `MaxItems`, the count trigger never fires:
no batch is flushed during the run and the whole stream remains in the
window. -/
theorem watchGo_no_flush (maxItems : Nat) (xs : List BatchItems) :
    ∀ buf : List BatchItems, buf.length + xs.length < maxItems →
      watchGo maxItems buf xs = ([], buf ++ xs) := by
  induction xs with
  | nil => intro buf h; simp [watchGo]
  | cons x xs ih =>
      intro buf h
      have hne : (buf ++ [x]).length ≠ maxItems := by
        simp only [List.length_append, List.length_singleton]
        simp only [List.length_cons] at h
        omega
      simp only [watchGo]
      rw [if_neg hne, ih (buf ++ [x]) (by
        simp only [List.length_append, List.length_singleton]
        simp only [List.length_cons] at h
        omega)]
      simp

/-! ## The claims -/

/-- Under the benign schedule — every forwarding goroutine of `ReadItems`
completes, in spawn order, before the drain check of `Close` runs, and the
routing loop forwards every flushed batch before acting on the `Quit`
signal — no item is lost: if `k` items are submitted with `MaxItems` greater
than `k`, no count-triggered flush occurs, and the concatenation of all
batches delivered through the Supply hand-off is exactly the tagged stream,
its payloads the `k` submitted items each exactly once, its ids `1..k`.
This bound is schedule-dependent: see the racing run below, where the same
submissions deliver nothing. -/
theorem benign_schedule_no_loss (xs : List Nat) (maxItems : Nat)
    (callers : List Nat) (hcap : xs.length < maxItems)
    (hcallers : (closeDelivered maxItems (readItems xs)).length ≤ callers.length) :
    watchProducerRun maxItems (readItems xs) = ([], readItems xs) ∧
    ((workerDeliver (closeDelivered maxItems (readItems xs)) callers).map
        Prod.snd).flatten = readItems xs ∧
    (((workerDeliver (closeDelivered maxItems (readItems xs)) callers).map
        Prod.snd).flatten).map BatchItems.Item = xs ∧
    (((workerDeliver (closeDelivered maxItems (readItems xs)) callers).map
        Prod.snd).flatten).map BatchItems.Id = List.range' 1 xs.length := by
  have hnoflush : watchProducerRun maxItems (readItems xs) = ([], readItems xs) := by
    unfold watchProducerRun
    exact watchGo_no_flush maxItems (readItems xs) [] (by
      simpa [readItems_length] using hcap)
  refine ⟨hnoflush, ?_⟩
  rw [workerDeliver_map_snd _ _ hcallers, closeDelivered_flatten]
  exact ⟨rfl, readItems_map_payload xs, readItems_map_id xs⟩

/-- Claim C1 fails on the code: item loss under graceful shutdown is a real
run.  `Close` spawns the drain check in its own goroutine
(src/batch/batch.go, line 97) with nothing synchronizing it against the
per-item forwarding goroutines of `ReadItems` (lines 64-69), so with one
item submitted under `MaxItems = 6` the drain check can run before the
item's forwarder delivers it to the Watcher channel: of the schedule `[0]`
in which that forwarder completes, the empty prefix has completed when the
drain runs, the producer window is empty, the drain flush releases nothing,
and `Stop` then terminates the producer loop so the in-flight send never
completes — the union of all batches delivered through Supply is empty and
the submitted item (id 1) is lost, not delivered exactly once. -/
theorem c1_close_drain_race_loses_item :
    validSched 1 [0] ∧
    ([0] : List Nat).take 0 = [] ∧
    readItems [10] = [{ Id := 1, Item := 10 }] ∧
    arrivalUnder (readItems [10]) [] = [] ∧
    closeDelivered 6 (arrivalUnder (readItems [10]) []) = [] ∧
    ((closeDelivered 6 (arrivalUnder (readItems [10]) [])).flatten).map
        BatchItems.Item ≠ [10] := by decide

/-- Claim C4 fails on the code: `Close` has no already-closed guard, so the
first invocation closes the ingestion channel `b.Item` and a second
invocation reaches `close(b.Item)` again, which is the Go runtime panic
`close of closed channel` rather than a no-op reporting already-closed. -/
theorem c4_close_twice_panics :
    closeChanEffect false = Except.ok true ∧
    closeChanEffect true = Except.error ChanPanic.closeOfClosed ∧
    (closeChanEffect false >>= closeChanEffect)
      = Except.error ChanPanic.closeOfClosed := by
  refine ⟨rfl, rfl, rfl⟩

/-- Claim C5 fails on the code as stated: `ReadItems` forwards each tagged
item to the producer in its own goroutine, so there is an interleaving — the
valid schedule `[1, 0]` on two submissions — in which the second item reaches
the producer first and the delivered batch lists ids `[2, 1]`, which is not
in submission (increasing-id) order. -/
theorem c5_counterexample :
    validSched 2 [1, 0] ∧
    (closeDelivered 5 (arrivalUnder (readItems [10, 20]) [1, 0])).map
        (fun b => b.map BatchItems.Id) = [[2, 1]] ∧
    ¬ (([2, 1] : List Nat).Pairwise (· < ·)) := by decide

/-- Claim C5 as amended: when the forwarding goroutines complete in spawn
order — the spawn-order schedule, which the 100 ms sleep in `ReadItems` is
there to arrange — every batch delivered through a run followed by `Close`
lists its items in submission order, i.e. with strictly increasing ids. -/
theorem c5_order_preserved_in_spawn_order (xs : List Nat) (maxItems : Nat)
    (b : List BatchItems)
    (hb : b ∈ closeDelivered maxItems
        (arrivalUnder (readItems xs) (List.range xs.length))) :
    (b.map BatchItems.Id).Pairwise (· < ·) := by
  rw [show List.range xs.length = List.range (readItems xs).length by
        rw [readItems_length],
      arrivalUnder_range] at hb
  have hsub := closeDelivered_mem_sublist maxItems (readItems xs) b hb
  have hpw : ((readItems xs).map BatchItems.Id).Pairwise (· < ·) := by
    rw [readItems_map_id]
    exact List.pairwise_lt_range' _ _
  exact hpw.sublist (hsub.map BatchItems.Id)

theorem c5_order_preserved_in_spawn_order_witness :
    ([{ Id := 1, Item := 1 }, { Id := 2, Item := 2 }] : List BatchItems) ∈
      closeDelivered 2 (arrivalUnder (readItems [1, 2, 3]) (List.range 3)) ∧
    (([{ Id := 1, Item := 1 }, { Id := 2, Item := 2 }] : List BatchItems).map
        BatchItems.Id).Pairwise (· < ·) :=
  ⟨by decide,
    c5_order_preserved_in_spawn_order [1, 2, 3] 2
      [{ Id := 1, Item := 1 }, { Id := 2, Item := 2 }] (by decide)⟩

/-- Claim C6 fails on the code: after the termination signal unblocks
`StartConsumer`, the statements in program order are `cancel()`,
`os.Exit(0)`, `c.Workerline.Wait()`; execution stops at `os.Exit(0)`, so the
process terminates inside the library, `Workerline.Wait` is never reached,
and control is not returned to the embedding application. -/
theorem c6_consumer_exits_process_before_wait :
    execStmts startConsumerShutdownStmts
      = [ConsumerAction.cancelRouting, ConsumerAction.processExit] ∧
    ConsumerAction.processExit ∈ execStmts startConsumerShutdownStmts ∧
    ConsumerAction.workerlineWait ∉ execStmts startConsumerShutdownStmts := by
  decide

/-- Claim C7 fails on the code as stated: a configuration asking for a
worker pool of 4 still gets `DefaultWorkerPool = 10` workers, because
`StartConsumer` sizes the pool from the package-level variable and no
`WithWorkerPoolSize` option reaches it. -/
theorem c7_counterexample :
    startConsumerWorkers.length = 10 ∧
    workerCountPerSpec
        { MaxItemsCfg := 8, MaxWaitCfg := 50, WorkerPoolSize := 4 } = 4 ∧
    startConsumerWorkers.length ≠
      workerCountPerSpec
        { MaxItemsCfg := 8, MaxWaitCfg := 50, WorkerPoolSize := 4 } := by decide

/-- Claim C7 as amended: starting the consumer spins up exactly
`DefaultWorkerPool` worker tasks, and that package-level value is the
documented default 10; the pool size is this fixed value, not a configured
one. -/
theorem c7_pool_is_fixed_default :
    startConsumerWorkers.length = DefaultWorkerPool ∧ DefaultWorkerPool = 10 := by
  decide

/-- Claim C8 fails on the code as stated: the validating constructor the
spec requires rejects `MaxItems = 0`, but `NewBatch` applies the option,
stores the non-positive value, sizes the semaphore by it, and returns the
pipeline object with no error. -/
theorem c8_counterexample :
    NewBatchSpecCheck { MaxItemsCfg := 0, MaxWaitCfg := 50, WorkerPoolSize := 10 }
        = Except.error ConfigError.nonPositiveMaxItems ∧
    (NewBatchGlobal [] { MaxItems := 100, MaxWait := 50 } [withMaxItems 0]).1
        = { Id := 0, Producer := { MaxItems := 0, MaxWait := 50 },
            SemaphoreCapacity := 0 } ∧
    (NewBatchGlobal [] { MaxItems := 100, MaxWait := 50 } [withMaxItems 0]).2
        = [] := by
  refine ⟨rfl, rfl, rfl⟩

/-- Claim C8 as amended: `NewBatch` performs no configuration validation and
has no error return; for every option list, including those that leave
`MaxItems` non-positive or `MaxWait` zero or negative, construction
synchronously returns the pipeline object whose producer is just the options
applied to the initial configuration and whose semaphore capacity is the
resulting `MaxItems`. -/
theorem c8_construction_never_validates (g : List BatchItems)
    (init : BatchProducerModel)
    (opts : List (BatchProducerModel → BatchProducerModel)) :
    NewBatchGlobal g init opts =
      ({ Id := 0, Producer := applyOpts opts init,
         SemaphoreCapacity := (applyOpts opts init).MaxItems },
       ([] : List BatchItems)) := rfl

/-- Claim C9: `Close` never returns.  Starting from the single
drain-completion signal `CheckRemainingItems` sends, no number of scheduler
steps brings the `for`/`select` loop of `Close` to a returned state, and
after the stop-and-close body has run once every further step leaves the
loop blocked on a channel that is never signalled again. -/
theorem c9_close_never_returns :
    (∀ n : Nat, closeStep^[n] (CloseState.loopWait 1 0) ≠ CloseState.returned) ∧
    (∀ n : Nat, closeStep^[n + 1] (CloseState.loopWait 1 0)
        = CloseState.loopWait 0 1) := by
  constructor
  · intro n
    exact closeStep_loopWait_ne_returned n 1 0
  · intro n
    rw [Function.iterate_succ_apply]
    exact closeStep_blocked_fixed n 1

/-- Claim C10: `NewBatch` reassigns the package-level `items` slice to a
fresh empty slice, whatever a previously constructed instance had
accumulated there; constructing a second pipeline therefore discards any
unflushed items of the first. -/
theorem c10_newbatch_resets_global_items (g : List BatchItems)
    (init : BatchProducerModel)
    (opts : List (BatchProducerModel → BatchProducerModel)) :
    (NewBatchGlobal g init opts).2 = [] ∧
    (g ≠ [] → (NewBatchGlobal g init opts).2 ≠ g) := by
  refine ⟨rfl, fun hg h => hg ?_⟩
  exact h.symm.trans rfl

theorem c10_newbatch_resets_global_items_witness :
    (NewBatchGlobal [{ Id := 1, Item := 5 }] { MaxItems := 100, MaxWait := 50 }
        []).2 ≠ [{ Id := 1, Item := 5 }] :=
  (c10_newbatch_resets_global_items [{ Id := 1, Item := 5 }]
      { MaxItems := 100, MaxWait := 50 } []).2 (by decide)

end GoBatch
